import Mathlib

/-!
Shallow embedding of the Climate Risk Lens repository
(frontend map page, MapCanvas component, auth provider, SQL seed script,
Makefile train target, ASCII lint script, API error documentation),
with theorems checking the natural-language specification against it.
-/

namespace ClimateRisk

/-! ## Frontend map page (src/frontend/app/map/page.tsx) -/

/-- One entry of the mock predictions array built by fetchRiskData. -/
structure Prediction where
  hazard : String
  p_risk : ℚ
  q10 : ℚ
  q50 : ℚ
  q90 : ℚ
  model : String
  updated_at : String
  deriving DecidableEq, Repr

/-- One entry of the mock top_drivers array. -/
structure Driver where
  feature : String
  contribution : ℚ
  deriving DecidableEq, Repr

/-- The mock risk-data object assembled by fetchRiskData. -/
structure RiskData where
  grid_id : String
  horizon : ℕ
  predictions : List Prediction
  top_drivers : List Driver
  brief : String
  sources : List String
  deriving DecidableEq, Repr

/-- fetchRiskData from map/page.tsx lines 71-132: ignores its lat/lon
arguments and stores a hardcoded mock object.  The `now` argument models
the result of new Date().toISOString() at call time. -/
def fetchRiskData (lat lon : ℚ) (timeHorizon : ℕ) (now : String) : RiskData :=
  { grid_id := "37_-122"
    horizon := timeHorizon
    predictions :=
      [ { hazard := "flood", p_risk := 0.35, q10 := 0.15, q50 := 0.35, q90 := 0.65
          model := "demo-model-v1", updated_at := now }
      , { hazard := "heat", p_risk := 0.42, q10 := 0.20, q50 := 0.42, q90 := 0.75
          model := "demo-model-v1", updated_at := now }
      , { hazard := "smoke", p_risk := 0.18, q10 := 0.05, q50 := 0.18, q90 := 0.45
          model := "demo-model-v1", updated_at := now }
      , { hazard := "pm25", p_risk := 0.28, q10 := 0.10, q50 := 0.28, q90 := 0.55
          model := "demo-model-v1", updated_at := now } ]
    top_drivers :=
      [ ⟨"precipitation_24h", 0.35⟩, ⟨"soil_moisture", 0.28⟩
      , ⟨"elevation", 0.22⟩, ⟨"distance_to_water", 0.15⟩ ]
    brief := "Moderate risk conditions present. Main hazard: heat with 42% probability. Stay informed."
    sources := ["NOAA", "USGS", "EPA AirNow", "NASA FIRMS"] }

/-- The hardcoded geocoding table of handleGeocode (map/page.tsx lines
138-144; the same table is repeated in the URL-param effect, lines
188-194).  Pairs are (lat, lon). -/
def mockResults : List (String × ℚ × ℚ) :=
  [ ("san francisco", (37.7749, -122.4194))
  , ("new york", (40.7128, -74.0060))
  , ("chicago", (41.8781, -87.6298))
  , ("miami", (25.7617, -80.1918))
  , ("seattle", (47.6062, -122.3321)) ]

/-- JavaScript value of one code point under String.prototype.toLowerCase.
ASCII characters lowercase within ASCII (Char.toLower).  Of all other
Unicode code points exactly two lowercase to a string containing an ASCII
letter, and both are mapped exactly: U+212A KELVIN SIGN lowercases to k,
and U+0130 LATIN CAPITAL LETTER I WITH DOT ABOVE lowercases to i followed
by the combining dot U+0307.  Every remaining non-ASCII code point
lowercases in JavaScript to a non-ASCII string and is kept unchanged
here; since every string it is ever compared against in this file (the
five table keys and the Object.prototype property names) is pure ASCII,
keeping such a code point and lowercasing it are interchangeable: either
way the comparison fails. -/
def jsLowerChar (c : Char) : List Char :=
  if c = Char.ofNat 0x212A then ['k']
  else if c = Char.ofNat 0x130 then ['i', Char.ofNat 0x307]
  else [c.toLower]

/-- JavaScript query.toLowerCase(), code point by code point. -/
def jsToLower (s : String) : String := String.mk (List.flatten (s.data.map jsLowerChar))

/-- The own-property lookup of the mock table: the table entry whose key
equals query.toLowerCase(), when one exists. -/
def geocodeLookup (query : String) : Option (ℚ × ℚ) :=
  (mockResults.find? (fun kv => kv.1 == jsToLower query)).map (fun kv => kv.2)

/-- The keys of the mock geocoding table. -/
def geocodeKeys : List String := mockResults.map (fun kv => kv.1)

/-- Property names every plain object literal inherits from
Object.prototype (case-sensitive).  Reading mockResults[k] for such a k
that is not an own key returns the inherited member: a function, or for
the proto accessor the Object.prototype object — in either case a truthy
value carrying no lat or lon fields.  Only the all-lowercase names
(constructor and the proto accessor) can ever be produced by
query.toLowerCase(), but the full list is what the prototype holds. -/
def objectPrototypeProps : List String :=
  [ "constructor", "hasOwnProperty", "isPrototypeOf", "propertyIsEnumerable"
  , "toLocaleString", "toString", "valueOf", "__defineGetter__"
  , "__defineSetter__", "__lookupGetter__", "__lookupSetter__", "__proto__" ]

/-- Outcome of the JavaScript property access mockResults[k]: an own
entry (an object with lat and lon numbers), a truthy member inherited
from Object.prototype (whose lat and lon are undefined), or undefined. -/
inductive JsLookup where
  | city (lat lon : ℚ)
  | inherited
  | undef
  deriving DecidableEq, Repr

/-- JavaScript property access mockResults[query.toLowerCase()], prototype
chain included: own properties shadow inherited ones. -/
def jsLookup (query : String) : JsLookup :=
  match geocodeLookup query with
  | some c => JsLookup.city c.1 c.2
  | none =>
      if jsToLower query ∈ objectPrototypeProps then JsLookup.inherited
      else JsLookup.undef

/-- The map-page state touched by handleGeocode: center is stored as
(lat, lon) with each coordinate a JS number-or-undefined, plus the zoom
level and the fetched risk data. -/
structure MapState where
  center : Option ℚ × Option ℚ
  zoom : ℚ
  riskData : Option RiskData
  deriving DecidableEq, Repr

/-- handleGeocode from map/page.tsx lines 134-158: when the lookup result
is truthy it sets center to [result.lat, result.lon], zoom to 12 and
fetches risk data, otherwise it leaves the state unchanged.  For an
inherited prototype member result.lat and result.lon are undefined, so
the JS call fetchRiskData(undefined, undefined) runs; the body of
fetchRiskData reads neither parameter, so that call stores the very same
mock object as any other call, represented by instantiating the two
unread rational parameters at 0.  The URL-param effect (lines 183-205)
repeats this logic verbatim on the search parameter. -/
def handleGeocode (query : String) (timeHorizon : ℕ) (now : String)
    (s : MapState) : MapState :=
  match jsLookup query with
  | JsLookup.city lat lon =>
      { center := (some lat, some lon), zoom := 12
        riskData := some (fetchRiskData lat lon timeHorizon now) }
  | JsLookup.inherited =>
      { center := (none, none), zoom := 12
        riskData := some (fetchRiskData 0 0 timeHorizon now) }
  | JsLookup.undef => s

/-! ## Theorems about the map page -/

/-- Auxiliary: the geocode lookup succeeds exactly when the lowercased
query is a key of the mock table. -/
theorem geocodeLookup_isSome_iff (q : String) :
    (geocodeLookup q).isSome = true ↔ jsToLower q ∈ geocodeKeys := by
  unfold geocodeLookup geocodeKeys
  rw [Option.isSome_map']
  rw [List.find?_isSome]
  constructor
  · rintro ⟨kv, hkv, hbeq⟩
    exact List.mem_map.2 ⟨kv, hkv, beq_iff_eq.1 hbeq⟩
  · intro h
    obtain ⟨kv, hkv, heq⟩ := List.mem_map.1 h
    exact ⟨kv, hkv, beq_iff_eq.2 heq⟩

/-- C1: fetchRiskData stores mock data that does not depend on lat or lon:
grid_id is always 37_-122, the predictions are always the same four
entries (flood 0.35, heat 0.42, smoke 0.18, pm25 0.28), and the stored
horizon is the selected time horizon. -/
theorem fetchRiskData_ignores_coordinates
    (lat lon lat2 lon2 : ℚ) (th : ℕ) (now : String) :
    fetchRiskData lat lon th now = fetchRiskData lat2 lon2 th now ∧
    (fetchRiskData lat lon th now).grid_id = "37_-122" ∧
    (fetchRiskData lat lon th now).predictions.map (fun p => (p.hazard, p.p_risk)) =
      [("flood", (0.35 : ℚ)), ("heat", 0.42), ("smoke", 0.18), ("pm25", 0.28)] ∧
    (fetchRiskData lat lon th now).horizon = th :=
  ⟨rfl, rfl, rfl, rfl⟩

/-- Auxiliary: when the lowercased query is not an own key, the
own-property lookup misses. -/
theorem geocodeLookup_eq_none (q : String) (hnot : jsToLower q ∉ geocodeKeys) :
    geocodeLookup q = none := by
  cases hq : geocodeLookup q with
  | none => rfl
  | some c =>
      exact absurd ((geocodeLookup_isSome_iff q).1 (by rw [hq]; rfl)) hnot

/-- C2 counterexample: the lowercased query constructor is none of the
five table keys, yet JS property access finds the truthy inherited
Object.prototype.constructor, so handleGeocode does not leave the state
unchanged — it sets zoom to 12 and center to the pair of undefined
coordinates, refuting the claimed iff. -/
theorem handleGeocode_prototype_counterexample :
    jsToLower "constructor" ∉ geocodeKeys ∧
    handleGeocode "constructor" 24 "t" ⟨(some 0, some 0), 10, none⟩ ≠
      ⟨(some 0, some 0), 10, none⟩ ∧
    (handleGeocode "constructor" 24 "t" ⟨(some 0, some 0), 10, none⟩).zoom = 12 ∧
    (handleGeocode "constructor" 24 "t" ⟨(some 0, some 0), 10, none⟩).center =
      (none, none) := by
  refine ⟨by decide, ?_, rfl, rfl⟩
  intro hx
  exact Option.noConfusion (congrArg (fun st => st.center.1) hx)

/-- C2 amended: handleGeocode recenters the map iff the lowercased query
is one of the five table keys or one of the property names inherited from
Object.prototype.  On one of the five keys it sets center to the city
coordinates, zoom to 12 and fetches risk data; on an inherited prototype
name it sets center to the undefined pair and zoom to 12 and fetches risk
data with undefined coordinates; for every other query it leaves the whole
map state unchanged. -/
theorem handleGeocode_spec (q : String) (th : ℕ) (now : String) (s : MapState) :
    (jsToLower q ∈ geocodeKeys →
      ∃ c, geocodeLookup q = some c ∧
        handleGeocode q th now s =
          { center := (some c.1, some c.2), zoom := 12
            riskData := some (fetchRiskData c.1 c.2 th now) }) ∧
    (jsToLower q ∉ geocodeKeys → jsToLower q ∈ objectPrototypeProps →
      handleGeocode q th now s =
        { center := (none, none), zoom := 12
          riskData := some (fetchRiskData 0 0 th now) }) ∧
    (jsToLower q ∉ geocodeKeys → jsToLower q ∉ objectPrototypeProps →
      handleGeocode q th now s = s) := by
  refine ⟨?_, ?_, ?_⟩
  · intro hmem
    have hs : (geocodeLookup q).isSome = true := (geocodeLookup_isSome_iff q).2 hmem
    obtain ⟨c, hc⟩ := Option.isSome_iff_exists.1 hs
    refine ⟨c, hc, ?_⟩
    have hj : jsLookup q = JsLookup.city c.1 c.2 := by
      unfold jsLookup
      rw [hc]
    unfold handleGeocode
    rw [hj]
  · intro hnot hproto
    have hj : jsLookup q = JsLookup.inherited := by
      unfold jsLookup
      rw [geocodeLookup_eq_none q hnot, if_pos hproto]
    unfold handleGeocode
    rw [hj]
  · intro hnot hnproto
    have hj : jsLookup q = JsLookup.undef := by
      unfold jsLookup
      rw [geocodeLookup_eq_none q hnot, if_neg hnproto]
    unfold handleGeocode
    rw [hj]

/-- Witness for handleGeocode_spec: Chicago is a table key and recenters
to (41.8781, -87.6298) with zoom 12; constructor is an inherited prototype
name and recenters to undefined coordinates with zoom 12; gotham is
neither and the state is kept. -/
theorem handleGeocode_spec_witness :
    (∃ c, geocodeLookup "Chicago" = some c ∧
      handleGeocode "Chicago" 24 "t" ⟨(some 0, some 0), 10, none⟩ =
        { center := (some c.1, some c.2), zoom := 12
          riskData := some (fetchRiskData c.1 c.2 24 "t") }) ∧
    handleGeocode "constructor" 24 "t" ⟨(some 0, some 0), 10, none⟩ =
      ⟨(none, none), 12, some (fetchRiskData 0 0 24 "t")⟩ ∧
    handleGeocode "gotham" 24 "t" ⟨(some 0, some 0), 10, none⟩ =
      ⟨(some 0, some 0), 10, none⟩ :=
  ⟨(handleGeocode_spec "Chicago" 24 "t" ⟨(some 0, some 0), 10, none⟩).1 (by decide),
   (handleGeocode_spec "constructor" 24 "t" ⟨(some 0, some 0), 10, none⟩).2.1
     (by decide) (by decide),
   (handleGeocode_spec "gotham" 24 "t" ⟨(some 0, some 0), 10, none⟩).2.2
     (by decide) (by decide)⟩

/-! ## SQL seed script (src/infra/init.sql) -/

/-- get_grid_id from init.sql lines 34-44: FLOOR(lat), an underscore,
FLOOR(lon), returned as text. -/
def get_grid_id (lat lon : ℚ) : String :=
  toString (Int.floor lat) ++ "_" ++ toString (Int.floor lon)

/-- One row of demo_grid: the grid_id and the envelope built by
ST_MakeEnvelope(xmin, ymin, xmax, ymax) where x is longitude and y is
latitude. -/
structure GridCell where
  grid_id : String
  xmin : ℚ
  ymin : ℚ
  xmax : ℚ
  ymax : ℚ
  deriving DecidableEq, Repr

/-- The five rows of the demo_grid seed INSERT (init.sql lines 22-28). -/
def demo_grid : List GridCell :=
  [ ⟨"37_-122", -122.5, 37.5, -122.4, 37.6⟩
  , ⟨"37_-121", -122.4, 37.5, -122.3, 37.6⟩
  , ⟨"37_-123", -122.6, 37.5, -122.5, 37.6⟩
  , ⟨"38_-122", -122.5, 37.6, -122.4, 37.7⟩
  , ⟨"36_-122", -122.5, 37.4, -122.4, 37.5⟩ ]

/-- The point (lat, lon) lies in the envelope of the grid cell. -/
def inCell (c : GridCell) (lat lon : ℚ) : Prop :=
  c.xmin ≤ lon ∧ lon ≤ c.xmax ∧ c.ymin ≤ lat ∧ lat ≤ c.ymax

/-- Auxiliary: the floor of a rational bounded inside [lo, hi]. -/
theorem floor_eq_of_bounds (x lo hi : ℚ) (n : ℤ) (hlo : (n : ℚ) ≤ lo)
    (hhi : hi < (n : ℚ) + 1) (h1 : lo ≤ x) (h2 : x ≤ hi) : Int.floor x = n := by
  rw [Int.floor_eq_iff]
  exact ⟨by linarith, by linarith⟩

/-- Auxiliary: over the latitude and longitude ranges covered by the five
seeded cells, get_grid_id always returns 37_-123. -/
theorem get_grid_id_around_sf (lat lon : ℚ) (h1 : -122.6 ≤ lon)
    (h2 : lon ≤ -122.3) (h3 : 37.4 ≤ lat) (h4 : lat ≤ 37.7) :
    get_grid_id lat lon = "37_-123" := by
  have hlat : Int.floor lat = 37 :=
    floor_eq_of_bounds lat 37.4 37.7 37 (by norm_num) (by norm_num) h3 h4
  have hlon : Int.floor lon = -123 :=
    floor_eq_of_bounds lon (-122.6) (-122.3) (-123) (by norm_num) (by norm_num) h1 h2
  unfold get_grid_id
  rw [hlat, hlon]
  decide

/-- C3 counterexample: the point (37.55, -122.45) lies inside the seeded
cell 37_-122, yet get_grid_id maps it to 37_-123 (FLOOR of a negative
longitude moves one cell west), so the computed grid id differs from the
grid_id of the containing cell. -/
theorem get_grid_id_mismatch :
    (⟨"37_-122", -122.5, 37.5, -122.4, 37.6⟩ : GridCell) ∈ demo_grid ∧
    inCell ⟨"37_-122", -122.5, 37.5, -122.4, 37.6⟩ 37.55 (-122.45) ∧
    get_grid_id 37.55 (-122.45) = "37_-123" ∧
    ("37_-123" : String) ≠ "37_-122" := by
  refine ⟨?_, ?_, ?_, by decide⟩
  · unfold demo_grid
    exact List.mem_cons_self _ _
  · unfold inCell
    norm_num
  · exact get_grid_id_around_sf 37.55 (-122.45) (by norm_num) (by norm_num)
      (by norm_num) (by norm_num)

/-- C3 amended: for every point inside one of the five seeded demo_grid
cells, get_grid_id returns 37_-123; that equals the grid_id of the
containing cell exactly when that cell is the one named 37_-123 (it does
for the cell 37_-123 and fails for the other four). -/
theorem get_grid_id_seeded (lat lon : ℚ) (c : GridCell) (hc : c ∈ demo_grid)
    (h : inCell c lat lon) :
    get_grid_id lat lon = "37_-123" ∧
    (get_grid_id lat lon = c.grid_id ↔ c.grid_id = "37_-123") := by
  simp only [demo_grid, List.mem_cons, List.not_mem_nil, or_false] at hc
  rcases hc with rfl | rfl | rfl | rfl | rfl <;>
  · unfold inCell at h
    obtain ⟨h1, h2, h3, h4⟩ := h
    have hg : get_grid_id lat lon = "37_-123" :=
      get_grid_id_around_sf lat lon (by simp at h1 ⊢; linarith)
        (by simp at h2 ⊢; linarith) (by simp at h3 ⊢; linarith)
        (by simp at h4 ⊢; linarith)
    rw [hg]
    exact ⟨rfl, eq_comm⟩

/-- Witness for get_grid_id_seeded: the point (37.55, -122.55) inside the
seeded cell 37_-123. -/
theorem get_grid_id_seeded_witness :
    get_grid_id 37.55 (-122.55) = "37_-123" ∧
    (get_grid_id 37.55 (-122.55) =
        GridCell.grid_id ⟨"37_-123", -122.6, 37.5, -122.5, 37.6⟩ ↔
      GridCell.grid_id ⟨"37_-123", -122.6, 37.5, -122.5, 37.6⟩ = "37_-123") :=
  get_grid_id_seeded 37.55 (-122.55) ⟨"37_-123", -122.6, 37.5, -122.5, 37.6⟩
    (by unfold demo_grid; simp) (by unfold inCell; norm_num)

/-! ## MapCanvas component (src/unnamed/part_001) -/

/-- Geographic position as MapLibre stores it: an object with lng and lat
fields. -/
structure LngLat where
  lng : ℚ
  lat : ℚ
  deriving DecidableEq, Repr

/-- MapCanvas reads its center prop as latitude first: lines 39-42 and
104-107 destructure center into lat then lng and hand MapLibre the pair
swapped to lng, lat. -/
def centerPropToLngLat (center : ℚ × ℚ) : LngLat := ⟨center.2, center.1⟩

/-- The moveend handler (part_001 lines 78-83): it reads the map center c
and calls onCenterChange with the pair c.lng, c.lat — longitude first. -/
def moveendReport (c : LngLat) : ℚ × ℚ := (c.lng, c.lat)

/-- C4: feeding the coordinates reported by the moveend handler back in as
the center prop swaps latitude and longitude.  At the San Francisco
center (lng -122.4194, lat 37.7749) the round trip yields the position
with lng 37.7749 and lat -122.4194, a different (and invalid) location,
contradicting the intended round trip between prop and callback. -/
theorem moveend_report_swaps :
    centerPropToLngLat (moveendReport ⟨-122.4194, 37.7749⟩) =
      ⟨37.7749, -122.4194⟩ ∧
    (⟨37.7749, -122.4194⟩ : LngLat) ≠ ⟨-122.4194, 37.7749⟩ := by
  refine ⟨rfl, fun hx => ?_⟩
  have hl : (37.7749 : ℚ) = -122.4194 := congrArg LngLat.lng hx
  norm_num at hl

/-! ## Risk level thresholds (map page and MapCanvas) -/

/-- getRiskLevel from map/page.tsx lines 207-212. -/
def getRiskLevel (pRisk : ℚ) : String :=
  if pRisk < 0.3 then "low"
  else if pRisk < 0.6 then "moderate"
  else if pRisk < 0.8 then "high"
  else "extreme"

/-- The riskLevel ternary chain of the MapCanvas marker effect (part_001
lines 128-130), used for marker classification and colouring. -/
def markerRiskLevel (p_risk : ℚ) : String :=
  if p_risk < 0.3 then "low"
  else if p_risk < 0.6 then "moderate"
  else if p_risk < 0.8 then "high"
  else "extreme"

/-- The marker colour chain (part_001 lines 132-134), keyed on the
computed risk level. -/
def markerColor (riskLevel : String) : String :=
  if riskLevel == "low" then "#10b981"
  else if riskLevel == "moderate" then "#f59e0b"
  else if riskLevel == "high" then "#ef4444"
  else "#8b5cf6"

/-- Risk level according to the on-map legend (part_001 lines 198-220):
Low 0-30%, Moderate 30-60%, High 60-80%, Extreme 80-100%, read as
lower-inclusive ranges over probabilities written as fractions of 1. -/
def legendLevel (p : ℚ) : String :=
  if 0 ≤ p ∧ p < 0.3 then "low"
  else if 0.3 ≤ p ∧ p < 0.6 then "moderate"
  else if 0.6 ≤ p ∧ p < 0.8 then "high"
  else if 0.8 ≤ p ∧ p ≤ 1 then "extreme"
  else "undefined"

/-- C5: for every probability in [0, 1], the page risk level, the
MapCanvas marker risk level and the legend ranges all agree. -/
theorem riskLevel_consistent (p : ℚ) (h0 : 0 ≤ p) (h1 : p ≤ 1) :
    getRiskLevel p = markerRiskLevel p ∧ getRiskLevel p = legendLevel p := by
  refine ⟨rfl, ?_⟩
  unfold getRiskLevel legendLevel
  by_cases h3 : p < (0.3 : ℚ)
  · rw [if_pos h3, if_pos (⟨h0, h3⟩ : (0 : ℚ) ≤ p ∧ p < 0.3)]
  · rw [if_neg h3, if_neg (fun hx : (0 : ℚ) ≤ p ∧ p < 0.3 => h3 hx.2)]
    by_cases h6 : p < (0.6 : ℚ)
    · rw [if_pos h6, if_pos (⟨le_of_not_lt h3, h6⟩ : (0.3 : ℚ) ≤ p ∧ p < 0.6)]
    · rw [if_neg h6, if_neg (fun hx : (0.3 : ℚ) ≤ p ∧ p < 0.6 => h6 hx.2)]
      by_cases h8 : p < (0.8 : ℚ)
      · rw [if_pos h8, if_pos (⟨le_of_not_lt h6, h8⟩ : (0.6 : ℚ) ≤ p ∧ p < 0.8)]
      · rw [if_neg h8, if_neg (fun hx : (0.6 : ℚ) ≤ p ∧ p < 0.8 => h8 hx.2),
          if_pos (⟨le_of_not_lt h8, h1⟩ : (0.8 : ℚ) ≤ p ∧ p ≤ 1)]

/-- Witness for riskLevel_consistent at probability 0.45. -/
theorem riskLevel_consistent_witness :
    getRiskLevel 0.45 = markerRiskLevel 0.45 ∧
    getRiskLevel 0.45 = legendLevel 0.45 :=
  riskLevel_consistent 0.45 (by norm_num) (by norm_num)

/-! ## Documented API error responses (src/docs/API.md) -/

/-- Modelled from the spec: the FastAPI backend implementation is not part
of the repository snapshot; src/docs/API.md (Error Responses, lines
320-337) documents that every error response body is a JSON object with
the single field named detail holding the message text, and lists the
status codes 400, 401, 403, 404, 422 and 500 (200 being the success
code).  A response is a status code and a list of JSON object fields. -/
structure ErrorResponse where
  status : ℕ
  body : List (String × String)
  deriving DecidableEq, Repr

/-- The error status codes listed in API.md lines 330-337. -/
def documentedErrorStatuses : List ℕ := [400, 401, 403, 404, 422, 500]

/-- Modelled from the spec: an error response as documented in API.md —
the given status code and a body with the single field detail. -/
def documentedErrorResponse (status : ℕ) (msg : String) : ErrorResponse :=
  ⟨status, [("detail", msg)]⟩

/-- Does the JSON body of the response carry a field with this name? -/
def hasField (r : ErrorResponse) (name : String) : Bool :=
  r.body.any (fun f => f.1 == name)

/-- C6 counterexample: the documented 400 error response carries no field
named message; its only body field is named detail. -/
theorem error_response_no_message_field :
    400 ∈ documentedErrorStatuses ∧
    hasField (documentedErrorResponse 400 "Bad Request") "message" = false ∧
    hasField (documentedErrorResponse 400 "Bad Request") "detail" = true := by
  decide

/-- C6 amended: every documented error response carries a 4xx or 5xx
status code and a detail field holding the message in its JSON body, with
no other field. -/
theorem error_response_detail (st : ℕ) (msg : String)
    (h : st ∈ documentedErrorStatuses) :
    (400 ≤ st ∧ st ≤ 599) ∧
    hasField (documentedErrorResponse st msg) "detail" = true ∧
    (documentedErrorResponse st msg).body = [("detail", msg)] := by
  refine ⟨?_, rfl, rfl⟩
  simp only [documentedErrorStatuses, List.mem_cons, List.not_mem_nil,
    or_false] at h
  rcases h with rfl | rfl | rfl | rfl | rfl | rfl <;> norm_num

/-- Witness for error_response_detail at the 422 validation error. -/
theorem error_response_detail_witness :
    ((400 ≤ 422 ∧ 422 ≤ 599) ∧
      hasField (documentedErrorResponse 422 "Validation Error") "detail" = true ∧
      (documentedErrorResponse 422 "Validation Error").body =
        [("detail", "Validation Error")]) :=
  error_response_detail 422 "Validation Error" (by decide)

/-! ## Idempotence of the demo_grid seed INSERT -/

/-- Does the table already hold a row with this grid_id (the primary key
checked by ON CONFLICT)? -/
def hasKey (t : List GridCell) (k : String) : Bool :=
  t.any (fun r => r.grid_id == k)

/-- Insert one VALUES row under ON CONFLICT (grid_id) DO NOTHING: keep the
table unchanged when the key exists, append the row otherwise. -/
def insertRow (t : List GridCell) (c : GridCell) : List GridCell :=
  if hasKey t c.grid_id then t else t ++ [c]

/-- The whole demo_grid seed INSERT of init.sql lines 22-28: insert the
five VALUES rows in order. -/
def runSeed (t : List GridCell) : List GridCell := demo_grid.foldl insertRow t

/-- C7: the seed INSERT is idempotent — running it a second time after it
has already run leaves demo_grid unchanged, a single run on the empty
table yields exactly the five seeded cells, and any positive number of
runs from the empty table still yields exactly those five cells. -/
theorem demo_grid_seed_idempotent :
    runSeed (runSeed []) = runSeed [] ∧
    runSeed [] = demo_grid ∧
    ∀ n : ℕ, runSeed^[n + 1] [] = demo_grid := by
  refine ⟨rfl, rfl, ?_⟩
  intro n
  induction n with
  | zero => rfl
  | succ k ih =>
      rw [Function.iterate_succ_apply', ih]
      rfl

/-! ## ASCII-compliance lint script (src/scripts/check_ascii.sh) -/

/-- A character of the grep character class space to tilde, 0x20 to 0x7E. -/
def asciiPrintable (c : Char) : Bool :=
  0x20 ≤ c.toNat && c.toNat ≤ 0x7E

/-- grep -q over a file with a class matching any character outside space
to tilde (check_ascii.sh line 18).  grep works line by line, so a file is
a list of lines, each a list of characters without newline separators. -/
def fileHasViolation (file : List (List Char)) : Bool :=
  file.any (fun line => line.any (fun c => !(asciiPrintable c)))

/-- The VIOLATIONS counter of the loop over scanned files (lines 13-25). -/
def countViolations (files : List (List (List Char))) : ℕ :=
  files.foldl (fun acc f => if fileHasViolation f then acc + 1 else acc) 0

/-- The exit status of the script (lines 27-34): 0 when the counter is
zero, 1 otherwise. -/
def checkAsciiExit (files : List (List (List Char))) : ℕ :=
  if countViolations files = 0 then 0 else 1

/-- Auxiliary: the counting fold equals countP offset by the accumulator. -/
theorem countViolations_fold (files : List (List (List Char))) (acc : ℕ) :
    files.foldl (fun acc f => if fileHasViolation f then acc + 1 else acc) acc =
      acc + files.countP (fun f => fileHasViolation f) := by
  induction files generalizing acc with
  | nil => simp
  | cons f fs ih =>
      rw [List.foldl_cons, ih, List.countP_cons]
      by_cases hf : fileHasViolation f <;> simp [hf] <;> omega

/-- C8: a scanned file is reported as a violation iff it holds a character
outside the printable ASCII range 0x20 to 0x7E, and the script exits with
status 0 iff no scanned file has a violation. -/
theorem check_ascii_spec (files : List (List (List Char)))
    (file : List (List Char)) :
    (fileHasViolation file = true ↔
      ∃ line ∈ file, ∃ c ∈ line, c.toNat < 0x20 ∨ 0x7E < c.toNat) ∧
    (checkAsciiExit files = 0 ↔ ∀ f ∈ files, fileHasViolation f = false) := by
  constructor
  · unfold fileHasViolation asciiPrintable
    simp only [List.any_eq_true, Bool.not_eq_true', Bool.and_eq_false_iff,
      decide_eq_false_iff_not, not_le]
  · unfold checkAsciiExit countViolations
    rw [countViolations_fold, Nat.zero_add]
    constructor
    · intro h
      have hz : files.countP (fun f => fileHasViolation f) = 0 := by
        by_contra hnz
        rw [if_neg hnz] at h
        exact one_ne_zero h
      intro f hf
      have := List.countP_eq_zero.1 hz f hf
      simpa using this
    · intro h
      rw [if_pos (List.countP_eq_zero.2 (fun f hf => by simp [h f hf]))]

/-! ## Makefile train target (src/Makefile lines 77-82) -/

/-- One recipe line, as its working directory, program and arguments. -/
structure Command where
  workdir : String
  prog : String
  args : List String
  deriving DecidableEq, Repr

/-- The recipe of the train target: two echo lines around three
python invocations run from the ml directory. -/
def trainRecipe : List Command :=
  [ ⟨".", "echo", ["Training ML models..."]⟩
  , ⟨"ml", "python", ["train_flood.py", "--demo"]⟩
  , ⟨"ml", "python", ["train_heat.py", "--demo"]⟩
  , ⟨"ml", "python", ["train_smoke.py", "--demo"]⟩
  , ⟨".", "echo", ["Model training complete."]⟩ ]

/-- The three ML training scripts. -/
def trainingScripts : List String :=
  ["train_flood.py", "train_heat.py", "train_smoke.py"]

/-- Does the command invoke this training script? -/
def invokes (cmd : Command) (script : String) : Bool :=
  cmd.prog == "python" && cmd.args.head? == some script

/-- C9: the train target invokes each of the three training scripts
exactly once, every such invocation carries the --demo flag, and every
python invocation of the recipe is of one of the three scripts (so no
training script runs without the flag). -/
theorem train_target_all_demo :
    trainingScripts.all
      (fun s => trainRecipe.countP (fun cmd => invokes cmd s) == 1) = true ∧
    trainRecipe.all
      (fun cmd => !(trainingScripts.any (fun s => invokes cmd s)) ||
        cmd.args.contains "--demo") = true ∧
    trainRecipe.all
      (fun cmd => !(cmd.prog == "python") ||
        trainingScripts.contains (cmd.args.headD "")) = true := by
  decide

/-! ## AuthProvider (src/frontend/app/providers.tsx lines 43-77) -/

/-- The demo user object set by the provider. -/
structure AuthUser where
  email : String
  role : String
  deriving DecidableEq, Repr

/-- The hardcoded demo user. -/
def demoUser : AuthUser := ⟨"demo@example.com", "user"⟩

/-- localStorage as an association list of string keys and values. -/
abbrev Storage := List (String × String)

/-- localStorage.getItem. -/
def getItem (st : Storage) (k : String) : Option String :=
  (st.find? (fun kv => kv.1 == k)).map (fun kv => kv.2)

/-- localStorage.setItem: replace any binding of the key. -/
def setItem (st : Storage) (k v : String) : Storage :=
  (st.filter (fun kv => !(kv.1 == k))) ++ [(k, v)]

/-- localStorage.removeItem. -/
def removeItem (st : Storage) (k : String) : Storage :=
  st.filter (fun kv => !(kv.1 == k))

/-- The state of AuthProvider: the token and user React states plus the
browser localStorage. -/
structure AuthState where
  token : Option String
  user : Option AuthUser
  storage : Storage
  deriving DecidableEq, Repr

/-- JavaScript truthiness of the nullable token string: null and the
empty string are falsy, every other string is truthy. -/
def jsTruthy : Option String → Bool
  | none => false
  | some t => !(t == "")

/-- isAuthenticated (providers.tsx line 70): the double negation of
token, i.e. its truthiness. -/
def isAuthenticated (s : AuthState) : Bool := jsTruthy s.token

/-- The mount effect (lines 47-55): adopt the stored token when it is
truthy — a stored null or empty string is rejected. -/
def mountEffect (s : AuthState) : AuthState :=
  match getItem s.storage "auth_token" with
  | some t =>
      if t == "" then s
      else { s with token := some t, user := some demoUser }
  | none => s

/-- login (lines 57-62). -/
def login (s : AuthState) (newToken : String) : AuthState :=
  { token := some newToken, user := some demoUser
    storage := setItem s.storage "auth_token" newToken }

/-- logout (lines 64-68). -/
def logout (s : AuthState) : AuthState :=
  { token := none, user := none
    storage := removeItem s.storage "auth_token" }

/-- States reachable from a freshly mounted provider (token and user start
null, localStorage arbitrary) by the mount effect, login and logout. -/
inductive Reachable : AuthState → Prop where
  | init (storage : Storage) : Reachable ⟨none, none, storage⟩
  | doMount {s : AuthState} : Reachable s → Reachable (mountEffect s)
  | doLogin {s : AuthState} (tok : String) : Reachable s → Reachable (login s tok)
  | doLogout {s : AuthState} : Reachable s → Reachable (logout s)

/-- Auxiliary: removing a key leaves no binding of it. -/
theorem getItem_removeItem (st : Storage) (k : String) :
    getItem (removeItem st k) k = none := by
  unfold getItem removeItem
  have hnone : (st.filter (fun kv => !(kv.1 == k))).find?
      (fun kv => kv.1 == k) = none := by
    rw [List.find?_eq_none]
    intro x hx
    have hmem := (List.mem_filter.1 hx).2
    simp only [Bool.not_eq_true', beq_eq_false_iff_ne, ne_eq] at hmem
    simp [hmem]
  rw [hnone]
  rfl

/-- C10 counterexample: the state reached by calling login with the empty
string from a fresh provider is reachable, its token is non-null, and yet
isAuthenticated is false — the double negation of an empty string is
false in JS — refuting the claimed iff between isAuthenticated and
non-nullness of the token. -/
theorem auth_empty_token_counterexample :
    Reachable (login ⟨none, none, []⟩ "") ∧
    (login ⟨none, none, []⟩ "").token ≠ none ∧
    isAuthenticated (login ⟨none, none, []⟩ "") = false :=
  ⟨Reachable.doLogin "" (Reachable.init []),
   fun hx => Option.noConfusion hx, rfl⟩

/-- C10 amended: in every reachable AuthProvider state, isAuthenticated
holds iff the token is non-null and non-empty (JS truthiness of the
string); and after logout the token and user are null, the stored
auth_token key is gone, and isAuthenticated is false. -/
theorem auth_provider_invariant (s : AuthState) (h : Reachable s) :
    (isAuthenticated s = true ↔ s.token ≠ none ∧ s.token ≠ some "") ∧
    (logout s).token = none ∧
    (logout s).user = none ∧
    getItem (logout s).storage "auth_token" = none ∧
    isAuthenticated (logout s) = false := by
  refine ⟨?_, rfl, rfl, getItem_removeItem s.storage "auth_token", rfl⟩
  cases st : s.token with
  | none => simp [isAuthenticated, jsTruthy, st]
  | some t => simp [isAuthenticated, jsTruthy, st]

/-- Witness for auth_provider_invariant at the state reached by logging in
with token tok from a fresh provider with empty storage. -/
theorem auth_provider_invariant_witness :
    (isAuthenticated (login ⟨none, none, []⟩ "tok") = true ↔
      (login ⟨none, none, []⟩ "tok").token ≠ none ∧
        (login ⟨none, none, []⟩ "tok").token ≠ some "") ∧
    (logout (login ⟨none, none, []⟩ "tok")).token = none ∧
    (logout (login ⟨none, none, []⟩ "tok")).user = none ∧
    getItem (logout (login ⟨none, none, []⟩ "tok")).storage "auth_token" = none ∧
    isAuthenticated (logout (login ⟨none, none, []⟩ "tok")) = false :=
  auth_provider_invariant (login ⟨none, none, []⟩ "tok")
    (Reachable.doLogin "tok" (Reachable.init []))

end ClimateRisk
